import Mathlib

/-!
Verification of the outbound-request trust boundary of the attendence-server
repository: the constant-time comparator (src/utils/crypto.ts), the URL guard
and request client (src/utils/http/http-client.ts), and the Cookie Store
(src/utils/http/cookie-jar.ts).

JavaScript strings are modelled as lists of natural numbers (their UTF-16 code
units, the values `charCodeAt` returns); JavaScript numbers on these code paths
are small non-negative integers, so `Nat` with the bitwise operations is an
exact model (lengths and code units are far below 2^31, where `^`, `|` on
JavaScript numbers coincide with the operations on Nat).
-/

namespace AttendanceServer

/-- UTF-16 code units of a string of Basic-Multilingual-Plane characters.
For such strings (all the concrete inputs below are ASCII) `charCodeAt i`
equals the code point of the i-th character. -/
def codeUnits (s : String) : List Nat := s.toList.map Char.toNat

/-- The loop of `timingSafeEqual` (src/utils/crypto.ts lines 14-22), with an
iteration counter.  The accumulator starts at `a.length ^ b.length`; the loop
runs over `i = 0 .. maxLen-1`, reads the code unit at `i` from each string
(substituting `0` past the end, as the source's `i < a.length ? a.charCodeAt(i) : 0`
does) and ORs the XOR of the two code units into the accumulator.  The second
component counts the iterations executed. -/
def timingSafeEqualLoop (a b : List Nat) : Nat × Nat :=
  (List.range (max a.length b.length)).foldl
    (fun p i => (p.1 ||| ((a.getD i 0) ^^^ (b.getD i 0)), p.2 + 1))
    (a.length ^^^ b.length, 0)

/-- Embedding of `timingSafeEqual` (src/utils/crypto.ts): run the loop and
return whether the accumulator ended at `0`. -/
def timingSafeEqual (a b : List Nat) : Bool :=
  (timingSafeEqualLoop a b).1 == 0

/-- Natural-number OR is zero iff both arguments are zero. -/
lemma lor_eq_zero_iff (x y : Nat) : x ||| y = 0 ↔ x = 0 ∧ y = 0 := by
  constructor
  · intro h
    constructor
    · apply Nat.eq_of_testBit_eq
      intro i
      have := congrArg (fun n => n.testBit i) h
      simp only [Nat.testBit_or, Nat.zero_testBit, Bool.or_eq_false_iff] at this
      simpa using this.1
    · apply Nat.eq_of_testBit_eq
      intro i
      have := congrArg (fun n => n.testBit i) h
      simp only [Nat.testBit_or, Nat.zero_testBit, Bool.or_eq_false_iff] at this
      simpa using this.2
  · rintro ⟨rfl, rfl⟩
    rfl

/-- The instrumented fold splits into the plain OR-fold and a pure count. -/
lemma foldl_pair_spec (g : Nat → Nat) (l : List Nat) (a c : Nat) :
    l.foldl (fun p i => (p.1 ||| g i, p.2 + 1)) (a, c) =
      (l.foldl (fun x i => x ||| g i) a, c + l.length) := by
  induction l generalizing a c with
  | nil => simp
  | cons x t ih =>
    rw [List.foldl_cons, List.foldl_cons, ih]
    refine congrArg _ ?_
    simp only [List.length_cons]
    omega

/-- An OR-fold is zero iff the initial accumulator and every contribution are. -/
lemma foldl_or_eq_zero (g : Nat → Nat) (l : List Nat) (a : Nat) :
    l.foldl (fun x i => x ||| g i) a = 0 ↔ a = 0 ∧ ∀ i ∈ l, g i = 0 := by
  induction l generalizing a with
  | nil => simp
  | cons x t ih =>
    rw [List.foldl_cons, ih]
    simp only [lor_eq_zero_iff, List.mem_cons]
    constructor
    · rintro ⟨⟨h1, h2⟩, h3⟩
      exact ⟨h1, fun i hi => hi.elim (fun h => h ▸ h2) (h3 i)⟩
    · rintro ⟨h1, h2⟩
      exact ⟨⟨h1, h2 x (Or.inl rfl)⟩, fun i hi => h2 i (Or.inr hi)⟩

/-- C3: for all pairs of strings (code-unit sequences) `a` and `b`,
`timingSafeEqual a b` returns `true` iff `a` and `b` are equal as sequences of
code units; the function is total (it is a Lean function) and has no failure
modes. -/
theorem c3_timingSafeEqual_iff_eq (a b : List Nat) :
    timingSafeEqual a b = true ↔ a = b := by
  unfold timingSafeEqual timingSafeEqualLoop
  rw [foldl_pair_spec]
  simp only [beq_iff_eq]
  rw [foldl_or_eq_zero]
  constructor
  · rintro ⟨h1, h2⟩
    have hlen : a.length = b.length := Nat.xor_eq_zero.mp h1
    apply List.ext_getElem hlen
    intro i hia hib
    have hi : i ∈ List.range (max a.length b.length) :=
      List.mem_range.mpr (by omega)
    have hx : a.getD i 0 = b.getD i 0 := Nat.xor_eq_zero.mp (h2 i hi)
    rwa [List.getD_eq_getElem a 0 hia, List.getD_eq_getElem b 0 hib] at hx
  · rintro rfl
    exact ⟨by simp, fun i _ => by simp⟩

/-- Witness for C3 at the concrete pair ("abc", "abc"). -/
theorem c3_timingSafeEqual_iff_eq_witness :
    timingSafeEqual (codeUnits "abc") (codeUnits "abc") = true :=
  (c3_timingSafeEqual_iff_eq (codeUnits "abc") (codeUnits "abc")).mpr rfl

/-- C4: the loop of `timingSafeEqual` executes exactly
`max (len a) (len b)` iterations — the iteration count is a function only of
`max (len a) (len b)`, never of the position of the first mismatching code
unit; in particular on ("abc","abd") and on ("aaa","zaa") it iterates exactly
3 times. -/
theorem c4_iteration_count :
    (∀ a b : List Nat, (timingSafeEqualLoop a b).2 = max a.length b.length) ∧
    (timingSafeEqualLoop (codeUnits "abc") (codeUnits "abd")).2 = 3 ∧
    (timingSafeEqualLoop (codeUnits "aaa") (codeUnits "zaa")).2 = 3 := by
  have hcount : ∀ a b : List Nat,
      (timingSafeEqualLoop a b).2 = max a.length b.length := by
    intro a b
    unfold timingSafeEqualLoop
    rw [foldl_pair_spec]
    simp
  refine ⟨hcount, ?_, ?_⟩
  · rw [hcount]; rfl
  · rw [hcount]; rfl

/-- Witness for C4 at a concrete pair of unequal length. -/
theorem c4_iteration_count_witness :
    (timingSafeEqualLoop (codeUnits "ab") (codeUnits "zzzz")).2 = 4 := by
  rw [c4_iteration_count.1]
  rfl

/-! Cookie Store.  The file src/utils/http/cookie-jar.ts is imported by
http-client.ts but is not among the sources, so the store is modelled from the
spec (section 4.3). -/

/-- Characters of `l` up to (excluding) the first semicolon. -/
def takeUntilSemi (l : List Char) : List Char :=
  l.takeWhile (fun c => c != ';')

/-- Splits a character list at the first equals sign; `none` when there is no
equals sign at all. -/
def splitAtEq : List Char → Option (List Char × List Char)
  | [] => none
  | '=' :: rest => some ([], rest)
  | c :: rest => (splitAtEq rest).map (fun p => (c :: p.1, p.2))

/-- Modelled from the spec: parsing of one raw Set-Cookie line by the Cookie
Store (src/utils/http/cookie-jar.ts, which is missing from the sources) —
"for each raw Set-Cookie line, extract the leading name=value token (up to the
first ;)"; "Malformed entries (no =) are silently skipped". -/
def parseCookiePair (line : String) : Option (String × String) :=
  match splitAtEq (takeUntilSemi line.data) with
  | none => none
  | some (n, v) => some (⟨n⟩, ⟨v⟩)

/-- Upserts a name/value pair into an insertion-ordered association list:
an existing entry with the same name is overwritten in place, otherwise the
pair is appended at the end. -/
def upsertCookie : List (String × String) → String → String → List (String × String)
  | [], n, v => [(n, v)]
  | (k, w) :: rest, n, v =>
    if k = n then (n, v) :: rest else (k, w) :: upsertCookie rest n v

/-- Modelled from the spec: the Cookie Store (src/utils/http/cookie-jar.ts,
missing from the sources) — "mapping from cookie name to Cookie (keys unique;
last write wins)", rendered in insertion order. -/
structure CookieJar where
  cookies : List (String × String)
deriving Repr, DecidableEq

/-- A Cookie Store holding no cookies. -/
def CookieJar.empty : CookieJar := ⟨[]⟩

/-- Ingests one raw Set-Cookie line into the store. -/
def CookieJar.ingestLine (jar : CookieJar) (line : String) : CookieJar :=
  match parseCookiePair line with
  | none => jar
  | some (n, v) => ⟨upsertCookie jar.cookies n v⟩

/-- Modelled from the spec: `ingest(setCookieValues)` of the Cookie Store —
consumes a sequence of Set-Cookie lines, upserting each in order. -/
def CookieJar.setCookies (jar : CookieJar) (lines : List String) : CookieJar :=
  lines.foldl CookieJar.ingestLine jar

/-- Renders the stored cookies as "name=value" pairs joined by "; ". -/
def joinPairs : List (String × String) → String
  | [] => ""
  | [p] => p.1 ++ "=" ++ p.2
  | p :: q :: rest => p.1 ++ "=" ++ p.2 ++ "; " ++ joinPairs (q :: rest)

/-- Modelled from the spec: `header()` of the Cookie Store — renders all stored
cookies as name=value pairs joined by "; " in insertion order, and is absent
when no cookies are stored. -/
def CookieJar.getCookieHeader (jar : CookieJar) : Option String :=
  match jar.cookies with
  | [] => none
  | _ => some (joinPairs jar.cookies)

/-! Header set.  Model of the platform Headers map used by HttpClient.request:
header names are case-insensitive (normalized to lower case on storage), and
set replaces the value of an existing entry, else appends the entry. -/

/-- Lower-cases an ASCII character (the inputs in this development are ASCII,
where JavaScript toLowerCase acts exactly like this). -/
def lowerChar (c : Char) : Char :=
  if 'A' ≤ c && c ≤ 'Z' then Char.ofNat (c.toNat + 32) else c

/-- Lower-cases a string character by character. -/
def lowerStr (s : String) : String := ⟨s.data.map lowerChar⟩

/-- Replaces the value of the first entry with the given key, or appends the
pair at the end when no entry has the key. -/
def setEntry : List (String × String) → String → String → List (String × String)
  | [], key, v => [(key, v)]
  | (k, w) :: rest, key, v =>
    if k = key then (k, v) :: rest else (k, w) :: setEntry rest key v

/-- Model of the platform Headers map built by HttpClient.request: a list of
entries whose names are stored lower-cased. -/
structure Headers where
  entries : List (String × String)
deriving Repr, DecidableEq

/-- An empty header set. -/
def Headers.emp : Headers := ⟨[]⟩

/-- Model of Headers.set: normalizes the name to lower case and overwrites an
existing same-named entry, else appends. -/
def Headers.set (h : Headers) (name value : String) : Headers :=
  ⟨setEntry h.entries (lowerStr name) value⟩

/-- Model of Headers.get: case-insensitive lookup. -/
def Headers.get (h : Headers) (name : String) : Option String :=
  (h.entries.find? (fun e => e.1 == lowerStr name)).map Prod.snd

/-- Applies Headers.set for each pair of a list, in order (the source iterates
over a layer's entries and calls headers.set on each). -/
def Headers.setAll (h : Headers) (l : List (String × String)) : Headers :=
  l.foldl (fun h e => h.set e.1 e.2) h

/-! URL guard (validateUrl, src/utils/http/http-client.ts). -/

/-- Splits a character list at the first occurrence of "://"; `none` when the
list has no such occurrence. -/
def splitAtSchemeSep : List Char → Option (List Char × List Char)
  | [] => none
  | ':' :: '/' :: '/' :: rest => some ([], rest)
  | c :: rest => (splitAtSchemeSep rest).map (fun p => (c :: p.1, p.2))

/-- A parsed URL as validateUrl consumes it: the scheme with its trailing colon
(the protocol getter) and the serialized host (the hostname getter). -/
structure URL where
  protocol : String
  hostname : String
deriving Repr, DecidableEq

/-- Model of the platform WHATWG URL parser (the global URL constructor used
by validateUrl), restricted to absolute URLs of the shape
scheme://host[:port][/...].  Per the URL Standard the hostname getter returns
the serialized host, and an IPv6 host serializes inside square brackets
(for example parsing "http://[::1]/" yields the hostname "[::1]"); the
source's own bracketed pattern for the IPv6 loopback in BLOCKED_IPV6_PATTERNS
depends on exactly this behavior.  Already-canonical IPv4 and IPv6 literals
(all the concrete inputs below) are kept verbatim; the scheme and the host are
lower-cased as the standard requires. -/
def parseURL (s : String) : Option URL :=
  match splitAtSchemeSep s.data with
  | none => none
  | some (schemeChars, rest) =>
    let authority := rest.takeWhile (fun c => c != '/' && c != '?' && c != '#')
    if schemeChars.isEmpty || authority.isEmpty then none
    else
      let hostChars :=
        match authority with
        | '[' :: _ => (authority.takeWhile (fun c => c != ']')) ++ [']']
        | _ => authority.takeWhile (fun c => c != ':')
      some { protocol := lowerStr ⟨schemeChars⟩ ++ ":",
             hostname := lowerStr ⟨hostChars⟩ }

/-- Embedding of BadRequestError (src/utils/error/errors.ts): carries the
human-readable message. -/
structure BadRequestError where
  message : String
deriving Repr, DecidableEq

/-- Tests whether `p` is a prefix of `s`, on the underlying characters. -/
def strStarts (p s : String) : Bool := p.data.isPrefixOf s.data

/-- Embedding of the regular expression of PRIVATE_IP_PATTERNS for the class-B
private range: the pattern "172\." then the alternation of the two-digit
strings 16 through 31 then "\.", anchored at the start. -/
def pattern172 (h : String) : Bool :=
  ["16", "17", "18", "19", "20", "21", "22", "23",
   "24", "25", "26", "27", "28", "29", "30", "31"].any
    (fun oct => strStarts ("172." ++ oct ++ ".") h)

/-- Embedding of PRIVATE_IP_PATTERNS (src/utils/http/http-client.ts lines
107-114): each anchored regular expression becomes a test on the hostname
text.  Order as in the source: loopback, class-A private, class-B private,
class-C private, link-local, current network. -/
def PRIVATE_IP_PATTERNS : List (String → Bool) :=
  [ fun h => strStarts "127." h
  , fun h => strStarts "10." h
  , pattern172
  , fun h => strStarts "192.168." h
  , fun h => strStarts "169.254." h
  , fun h => strStarts "0." h ]

/-- Embedding of BLOCKED_HOSTNAMES (src/utils/http/http-client.ts). -/
def BLOCKED_HOSTNAMES : List String :=
  ["localhost", "localhost.localdomain", "ip6-localhost", "ip6-loopback",
   "0.0.0.0"]

/-- Lower-case hexadecimal digit test (the hostname the source tests is
already lower-cased, so the source's case-insensitive flag is immaterial). -/
def isHexDigitLower (c : Char) : Bool :=
  c.isDigit || ('a' ≤ c && c ≤ 'f')

/-- Embedding of the regular expression "^fc[0-9a-f]{2}:" (case-insensitive)
of BLOCKED_IPV6_PATTERNS. -/
def fcPattern (h : String) : Bool :=
  match h.data with
  | c0 :: c1 :: c2 :: c3 :: c4 :: _ =>
    c0 == 'f' && c1 == 'c' && isHexDigitLower c2 && isHexDigitLower c3 &&
      c4 == ':'
  | _ => false

/-- Embedding of the regular expression "^fd[0-9a-f]{2}:" (case-insensitive)
of BLOCKED_IPV6_PATTERNS. -/
def fdPattern (h : String) : Bool :=
  match h.data with
  | c0 :: c1 :: c2 :: c3 :: c4 :: _ =>
    c0 == 'f' && c1 == 'd' && isHexDigitLower c2 && isHexDigitLower c3 &&
      c4 == ':'
  | _ => false

/-- Embedding of BLOCKED_IPV6_PATTERNS (src/utils/http/http-client.ts lines
127-134): bare loopback, bracketed loopback, IPv4-mapped, the two unique-local
prefixes, and link-local, in source order. -/
def BLOCKED_IPV6_PATTERNS : List (String → Bool) :=
  [ fun h => h == "::1"
  , fun h => h == "[::1]"
  , fun h => strStarts "::ffff:" h
  , fcPattern
  , fdPattern
  , fun h => strStarts "fe80:" h ]

/-- Embedding of validateUrl (src/utils/http/http-client.ts lines 140-175):
parse the URL (error "Invalid URL format" on failure), allow only the http and
https protocols, lower-case the hostname, then reject blocked hostnames,
private IPv4 patterns and blocked IPv6 patterns, in that order; otherwise
return the parsed URL. -/
def validateUrl (urlString : String) : Except BadRequestError URL :=
  match parseURL urlString with
  | none => .error ⟨"Invalid URL format"⟩
  | some url =>
    if url.protocol != "http:" && url.protocol != "https:" then
      .error ⟨"Blocked protocol: " ++ url.protocol⟩
    else
      if BLOCKED_HOSTNAMES.contains (lowerStr url.hostname) then
        .error ⟨"Blocked hostname: localhost"⟩
      else if PRIVATE_IP_PATTERNS.any (fun p => p (lowerStr url.hostname)) then
        .error ⟨"Blocked: private IP address"⟩
      else if BLOCKED_IPV6_PATTERNS.any (fun p => p (lowerStr url.hostname)) then
        .error ⟨"Blocked: private IPv6 address"⟩
      else
        .ok url

/-! Request client (HttpClient.request, src/utils/http/http-client.ts lines
186-236). -/

/-- Embedding of InternalServerError (src/utils/error/errors.ts): carries the
human-readable message. -/
structure InternalServerError where
  message : String
deriving Repr, DecidableEq

/-- Embedding of the HttpError union of http-client.ts. -/
inductive HttpError where
  | badRequest (e : BadRequestError)
  | internalServer (e : InternalServerError)
deriving Repr, DecidableEq

/-- A transport response as the client consumes it: the status, the response
headers, the list of Set-Cookie header instances (res.headers.getSetCookie())
and the body. -/
structure TransportResponse where
  status : Nat
  headers : List (String × String)
  setCookies : List String
  body : String
deriving Repr, DecidableEq

/-- The outcome the transport primitive (fetch) would produce for a call:
either a response, or a thrown value — `some m` for an Error whose message is
`m`, `none` for a thrown non-Error value. -/
inductive FetchOutcome where
  | resp (r : TransportResponse)
  | thrown (errMessage : Option String)
deriving Repr, DecidableEq

/-- Decidable equality for Except values, used for the observable request
results below. -/
instance {ε α : Type} [DecidableEq ε] [DecidableEq α] :
    DecidableEq (Except ε α) := fun a b =>
  match a, b with
  | .error e1, .error e2 =>
    if h : e1 = e2 then isTrue (by rw [h])
    else isFalse (by intro hh; cases hh; exact h rfl)
  | .ok v1, .ok v2 =>
    if h : v1 = v2 then isTrue (by rw [h])
    else isFalse (by intro hh; cases hh; exact h rfl)
  | .error _, .ok _ => isFalse (by intro hh; cases hh)
  | .ok _, .error _ => isFalse (by intro hh; cases hh)

/-- Observable result of one HttpClient.request call: the returned Result, the
cookie jar after the call, how many times the transport primitive was invoked,
and the header set handed to the transport (absent when it was never built). -/
structure RequestResult where
  result : Except HttpError TransportResponse
  cookieJar : CookieJar
  transportCalls : Nat
  sentHeaders : Option Headers
deriving Repr, DecidableEq

/-- The three header layers of HttpClient.request steps 1-3: default headers
first (lowest priority), then the option headers, then the caller-supplied
custom headers (highest priority), each applied with Headers.set so that later
layers overwrite same-named entries. -/
def buildHeaders (defaultHeaders optionHeaders : List (String × String))
    (customHeaders : Option (List (String × String))) : Headers :=
  ((Headers.emp.setAll defaultHeaders).setAll optionHeaders).setAll
    (customHeaders.getD [])

/-- Embedding of HttpClient.request (src/utils/http/http-client.ts lines
186-236).  The client's state is the default-header list fixed at construction
and the current cookie jar; the transport primitive's behavior for this call
is passed as `transport`.  Steps: validate the URL (early return of the guard
error, before any header building, transport call or jar mutation); layer the
headers; set the Cookie header from the jar's header when that is present;
invoke the transport; on a thrown value return an InternalServerError with the
Error's message or the fallback "Network request failed"; on a response ingest
its Set-Cookie instances (the source guards on a non-empty list) and return
the response. -/
def HttpClient.request (defaultHeaders : List (String × String))
    (jar : CookieJar) (url : String) (optionHeaders : List (String × String))
    (customHeaders : Option (List (String × String)))
    (transport : FetchOutcome) : RequestResult :=
  match validateUrl url with
  | .error e =>
    { result := .error (.badRequest e), cookieJar := jar,
      transportCalls := 0, sentHeaders := none }
  | .ok _ =>
    let headers := buildHeaders defaultHeaders optionHeaders customHeaders
    let headers :=
      match jar.getCookieHeader with
      | some cookieHeader => headers.set "Cookie" cookieHeader
      | none => headers
    match transport with
    | .thrown m =>
      { result := .error (.internalServer ⟨m.getD "Network request failed"⟩),
        cookieJar := jar, transportCalls := 1, sentHeaders := some headers }
    | .resp res =>
      let jar2 :=
        if res.setCookies.length > 0 then jar.setCookies res.setCookies
        else jar
      { result := .ok res, cookieJar := jar2,
        transportCalls := 1, sentHeaders := some headers }

/-! Lemmas about the header map. -/

/-- Looking a key up after setEntry: the new value under the written key,
otherwise the old lookup. -/
lemma find?_setEntry (l : List (String × String)) (key v mkey : String) :
    ((setEntry l key v).find? (fun e => e.1 == mkey)).map Prod.snd =
      if mkey = key then some v
      else (l.find? (fun e => e.1 == mkey)).map Prod.snd := by
  induction l with
  | nil =>
    by_cases h : mkey = key
    · subst h
      simp [setEntry]
    · simp [setEntry, h, beq_false_of_ne (Ne.symm h)]
  | cons e t ih =>
    obtain ⟨k, w⟩ := e
    by_cases hk : k = key
    · subst hk
      by_cases hm : mkey = k
      · subst hm
        simp [setEntry]
      · simp [setEntry, hm, beq_false_of_ne (Ne.symm hm)]
    · by_cases hm2 : k = mkey
      · subst hm2
        simp [setEntry, hk, fun h : k = key => hk h]
      · simp [setEntry, hk, beq_false_of_ne hm2, ih]

/-- Headers.get after Headers.set: the new value when the (case-folded) names
agree, the old lookup otherwise. -/
lemma Headers.get_set (h : Headers) (n v m : String) :
    (h.set n v).get m =
      if lowerStr m = lowerStr n then some v else h.get m := by
  unfold Headers.set Headers.get
  simpa using find?_setEntry h.entries (lowerStr n) v (lowerStr m)

/-- Last-match lookup in one header layer: a later entry of the layer
overwrites an earlier same-named one. -/
def lookupLast : List (String × String) → String → Option String
  | [], _ => none
  | e :: t, name =>
    match lookupLast t name with
    | some v => some v
    | none => if lowerStr e.1 = lowerStr name then some e.2 else none

/-- Headers.setAll of a whole layer: the layer's last matching entry wins,
otherwise the lookup falls through to the headers already set. -/
lemma Headers.get_setAll (h : Headers) (l : List (String × String))
    (m : String) :
    (h.setAll l).get m =
      match lookupLast l m with
      | some v => some v
      | none => h.get m := by
  induction l generalizing h with
  | nil => simp [Headers.setAll, lookupLast]
  | cons e t ih =>
    show ((h.set e.1 e.2).setAll t).get m = _
    rw [ih]
    cases hl : lookupLast t m with
    | some v => simp [lookupLast, hl]
    | none =>
      simp only [lookupLast, hl]
      rw [Headers.get_set]
      by_cases hm : lowerStr m = lowerStr e.1
      · simp [hm]
      · have hm2 : ¬ lowerStr e.1 = lowerStr m := fun hh => hm hh.symm
        simp [hm, hm2]

/-- The layered header lookup the spec describes: the custom (override) layer
wins over the option layer, which wins over the default layer, later entries
within one layer winning over earlier ones. -/
def layeredLookup (defaultHeaders optionHeaders : List (String × String))
    (customHeaders : Option (List (String × String))) (name : String) :
    Option String :=
  match lookupLast (customHeaders.getD []) name with
  | some v => some v
  | none =>
    match lookupLast optionHeaders name with
    | some v => some v
    | none => lookupLast defaultHeaders name

/-! Auxiliary facts for the textual-prefix claim. -/

/-- The textual prefixes of the implicit claim: a hostname beginning with
"10.", "127.", "0.", "192.168.", "169.254.", or "172." followed by a second
dot-terminated label that is a number between 16 and 31. -/
def privateIpTextPred (h : String) : Prop :=
  strStarts "10." h = true ∨ strStarts "127." h = true ∨
  strStarts "0." h = true ∨ strStarts "192.168." h = true ∨
  strStarts "169.254." h = true ∨
  ∃ n : Nat, 16 ≤ n ∧ n ≤ 31 ∧ strStarts ("172." ++ toString n ++ ".") h = true

/-- A hostname starting with "172.", a number 16-31 and a dot matches the
class-B private pattern. -/
lemma pattern172_intro (h : String) (n : Nat) (h1 : 16 ≤ n) (h2 : n ≤ 31)
    (hp : strStarts ("172." ++ toString n ++ ".") h = true) :
    pattern172 h = true := by
  unfold pattern172
  rw [List.any_eq_true]
  interval_cases n <;> exact ⟨toString _, by decide, hp⟩

/-- Any hostname satisfying the textual-prefix predicate matches one of the
private IPv4 patterns. -/
lemma privPatterns_of (h : String) (hp : privateIpTextPred h) :
    PRIVATE_IP_PATTERNS.any (fun p => p h) = true := by
  simp only [PRIVATE_IP_PATTERNS, List.any_cons, List.any_nil, Bool.or_false,
    Bool.or_eq_true]
  rcases hp with h1 | h1 | h1 | h1 | h1 | ⟨n, h16, h31, h1⟩
  · exact Or.inr (Or.inl h1)
  · exact Or.inl h1
  · exact Or.inr (Or.inr (Or.inr (Or.inr (Or.inr h1))))
  · exact Or.inr (Or.inr (Or.inr (Or.inl h1)))
  · exact Or.inr (Or.inr (Or.inr (Or.inr (Or.inl h1))))
  · exact Or.inr (Or.inr (Or.inl (pattern172_intro h n h16 h31 h1)))

/-! The claims. -/

/-- C1: of the spec's rejection list, validateUrl rejects the bad scheme, the
localhost alias, the five private/link-local IPv4 literals and the bracketed
IPv6 loopback, and accepts both URLs of the acceptance list — but it also
ACCEPTS "http://[fe80::1]/" and "http://[fc00::1]/", because the hostname of a
parsed URL carries an IPv6 address in square brackets while the link-local and
unique-local patterns of BLOCKED_IPV6_PATTERNS are anchored at an unbracketed
first character, so they can never match; the spec's claim that these two are
rejected fails on the code. -/
theorem c1_urlGuard_lists :
    validateUrl "ftp://example.com" = .error ⟨"Blocked protocol: ftp:"⟩ ∧
    validateUrl "http://localhost/" = .error ⟨"Blocked hostname: localhost"⟩ ∧
    validateUrl "http://127.0.0.1/" = .error ⟨"Blocked: private IP address"⟩ ∧
    validateUrl "http://10.1.2.3/" = .error ⟨"Blocked: private IP address"⟩ ∧
    validateUrl "http://172.20.0.5/" = .error ⟨"Blocked: private IP address"⟩ ∧
    validateUrl "http://192.168.1.1/" = .error ⟨"Blocked: private IP address"⟩ ∧
    validateUrl "http://169.254.1.1/" = .error ⟨"Blocked: private IP address"⟩ ∧
    validateUrl "http://[::1]/" = .error ⟨"Blocked: private IPv6 address"⟩ ∧
    validateUrl "http://[fe80::1]/" = .ok ⟨"http:", "[fe80::1]"⟩ ∧
    validateUrl "http://[fc00::1]/" = .ok ⟨"http:", "[fc00::1]"⟩ ∧
    validateUrl "https://example.com/path" = .ok ⟨"https:", "example.com"⟩ ∧
    validateUrl "http://8.8.8.8/" = .ok ⟨"http:", "8.8.8.8"⟩ :=
  ⟨rfl, rfl, rfl, rfl, rfl, rfl, rfl, rfl, rfl, rfl, rfl, rfl⟩

/-- C2: when the URL guard rejects, HttpClient.request returns the guard's
failure as a BadRequestError, the transport primitive is never invoked, no
header set is built or sent, and the cookie jar is exactly what it was before
the call — for every client state, option and custom header layer, and every
behavior of the transport. -/
theorem c2_blocked_request_no_io (defaultHeaders : List (String × String))
    (jar : CookieJar) (url : String) (optionHeaders : List (String × String))
    (customHeaders : Option (List (String × String)))
    (transport : FetchOutcome) (e : BadRequestError)
    (h : validateUrl url = .error e) :
    HttpClient.request defaultHeaders jar url optionHeaders customHeaders
        transport =
      { result := .error (.badRequest e), cookieJar := jar,
        transportCalls := 0, sentHeaders := none } := by
  unfold HttpClient.request
  rw [h]

/-- Witness for C2: a blocked request to http://localhost/ with a non-trivial
jar and a transport that would respond. -/
theorem c2_blocked_request_no_io_witness :
    HttpClient.request [("A", "1")] ⟨[("sid", "7")]⟩ "http://localhost/" []
        none (.resp ⟨200, [], ["x=1"], "body"⟩) =
      { result := .error (.badRequest ⟨"Blocked hostname: localhost"⟩),
        cookieJar := ⟨[("sid", "7")]⟩, transportCalls := 0,
        sentHeaders := none } :=
  c2_blocked_request_no_io [("A", "1")] ⟨[("sid", "7")]⟩ "http://localhost/"
    [] none (.resp ⟨200, [], ["x=1"], "body"⟩) ⟨"Blocked hostname: localhost"⟩
    rfl

/-- C5: the claim that a caller-supplied Cookie override wins over the Cookie
Store fails on the code: HttpClient.request sets the Cookie header from the
store AFTER the three layers are applied, with an unconditional Headers.set,
so with a non-empty store the caller's Cookie value "x=2" is overwritten by
the store's "a=1" in the header set handed to the transport. -/
theorem c5_cookie_override_clobbered :
    ((HttpClient.request [] ⟨[("a", "1")]⟩ "https://example.com/path" []
        (some [("Cookie", "x=2")])
        (.resp ⟨200, [], [], ""⟩)).sentHeaders.getD Headers.emp).get "Cookie"
      = some "a=1" ∧
    ((HttpClient.request [] ⟨[("a", "1")]⟩ "https://example.com/path" []
        (some [("Cookie", "x=2")])
        (.resp ⟨200, [], [], ""⟩)).sentHeaders.getD Headers.emp).get "Cookie"
      ≠ some "x=2" :=
  ⟨rfl, by decide⟩

/-- C9: starting from an empty Cookie Store, ingesting "a=1" then "b=2" makes
the rendered header "a=1; b=2"; a subsequent ingest of "a=9" updates the entry
for a in place, leaving b's position unchanged, so the header becomes
"a=9; b=2"; and the header is absent when no cookies are stored. -/
theorem c9_cookie_roundtrip :
    (CookieJar.empty.setCookies ["a=1", "b=2"]).getCookieHeader =
      some "a=1; b=2" ∧
    ((CookieJar.empty.setCookies ["a=1", "b=2"]).setCookies
        ["a=9"]).getCookieHeader = some "a=9; b=2" ∧
    ((CookieJar.empty.setCookies ["a=1", "b=2"]).setCookies
        ["a=9"]).cookies = [("a", "9"), ("b", "2")] ∧
    CookieJar.empty.getCookieHeader = none :=
  ⟨rfl, rfl, rfl, rfl⟩

/-- C6: the effective header set is built from three layers in increasing
priority — defaults, then option headers, then caller overrides — each later
layer overwriting same-named entries of earlier ones (within a layer a later
entry overwrites an earlier same-named one); and in particular default X=1,
option X=2 Y=3, override X=4 yield exactly the effective headers x=4, y=3 in
the set handed to the transport. -/
theorem c6_header_layering :
    (∀ (d o : List (String × String)) (c : Option (List (String × String)))
        (name : String),
        (buildHeaders d o c).get name = layeredLookup d o c name) ∧
    (HttpClient.request [("X", "1")] CookieJar.empty
        "https://example.com/path" [("X", "2"), ("Y", "3")]
        (some [("X", "4")]) (.resp ⟨200, [], [], ""⟩)).sentHeaders =
      some ⟨[("x", "4"), ("y", "3")]⟩ := by
  constructor
  · intro d o c name
    unfold buildHeaders layeredLookup
    rw [Headers.get_setAll, Headers.get_setAll, Headers.get_setAll]
    cases lookupLast (c.getD []) name with
    | some v => rfl
    | none =>
      cases lookupLast o name with
      | some v => rfl
      | none =>
        cases lookupLast d name with
        | some v => rfl
        | none => rfl
  · rfl

/-- Witness for C6 at concrete layers exercising the general part. -/
theorem c6_header_layering_witness :
    (buildHeaders [("X", "1")] [("X", "2"), ("Y", "3")]
        (some [("X", "4")])).get "X" =
      layeredLookup [("X", "1")] [("X", "2"), ("Y", "3")]
        (some [("X", "4")]) "X" :=
  c6_header_layering.1 [("X", "1")] [("X", "2"), ("Y", "3")]
    (some [("X", "4")]) "X"

/-- C7: when the guard has accepted the target and the transport throws,
HttpClient.request returns an InternalServerError carrying the thrown Error's
message — or the fallback "Network request failed" when the thrown value is
not an Error — the exception is never propagated (request always returns a
value), and the cookie jar is untouched. -/
theorem c7_network_error (defaultHeaders : List (String × String))
    (jar : CookieJar) (url : String) (optionHeaders : List (String × String))
    (customHeaders : Option (List (String × String))) (u : URL)
    (m : Option String) (h : validateUrl url = .ok u) :
    (HttpClient.request defaultHeaders jar url optionHeaders customHeaders
        (.thrown m)).result =
      .error (.internalServer ⟨m.getD "Network request failed"⟩) ∧
    (HttpClient.request defaultHeaders jar url optionHeaders customHeaders
        (.thrown m)).cookieJar = jar ∧
    (HttpClient.request defaultHeaders jar url optionHeaders customHeaders
        (.thrown m)).transportCalls = 1 := by
  unfold HttpClient.request
  rw [h]
  exact ⟨rfl, rfl, rfl⟩

/-- Witness for C7: an accepted target whose transport throws an Error with
message "boom". -/
theorem c7_network_error_witness :
    (HttpClient.request [] ⟨[("sid", "7")]⟩ "https://example.com/path" []
        none (.thrown (some "boom"))).result =
      .error (.internalServer ⟨"boom"⟩) ∧
    (HttpClient.request [] ⟨[("sid", "7")]⟩ "https://example.com/path" []
        none (.thrown (some "boom"))).cookieJar = ⟨[("sid", "7")]⟩ ∧
    (HttpClient.request [] ⟨[("sid", "7")]⟩ "https://example.com/path" []
        none (.thrown (some "boom"))).transportCalls = 1 :=
  c7_network_error [] ⟨[("sid", "7")]⟩ "https://example.com/path" [] none
    ⟨"https:", "example.com"⟩ (some "boom") rfl

/-- C8: on any transport response — whatever its status code — request ingests
all the response's Set-Cookie instances into the Cookie Store and returns the
response as a success; and a success is only ever produced on a call whose
target the URL guard accepted. -/
theorem c8_success_path :
    (∀ (defaultHeaders : List (String × String)) (jar : CookieJar)
        (url : String) (optionHeaders : List (String × String))
        (customHeaders : Option (List (String × String)))
        (r : TransportResponse) (u : URL), validateUrl url = .ok u →
        (HttpClient.request defaultHeaders jar url optionHeaders customHeaders
            (.resp r)).result = .ok r ∧
        (HttpClient.request defaultHeaders jar url optionHeaders customHeaders
            (.resp r)).cookieJar = jar.setCookies r.setCookies) ∧
    (∀ (defaultHeaders : List (String × String)) (jar : CookieJar)
        (url : String) (optionHeaders : List (String × String))
        (customHeaders : Option (List (String × String)))
        (transport : FetchOutcome) (r : TransportResponse),
        (HttpClient.request defaultHeaders jar url optionHeaders customHeaders
            transport).result = .ok r →
        ∃ u, validateUrl url = .ok u) := by
  constructor
  · intro defaultHeaders jar url optionHeaders customHeaders r u h
    unfold HttpClient.request
    rw [h]
    refine ⟨rfl, ?_⟩
    cases hsc : r.setCookies with
    | nil => simp [hsc, CookieJar.setCookies]
    | cons x t => simp [hsc]
  · intro defaultHeaders jar url optionHeaders customHeaders transport r h
    unfold HttpClient.request at h
    cases hv : validateUrl url with
    | error e => rw [hv] at h; simp at h
    | ok u => exact ⟨u, rfl⟩

/-- Witness for C8: a 500 response carrying two Set-Cookie instances is a
success whose cookies are ingested. -/
theorem c8_success_path_witness :
    (HttpClient.request [] CookieJar.empty "http://8.8.8.8/" [] none
        (.resp ⟨500, [], ["a=1", "b=2"], "oops"⟩)).result =
      .ok ⟨500, [], ["a=1", "b=2"], "oops"⟩ ∧
    (HttpClient.request [] CookieJar.empty "http://8.8.8.8/" [] none
        (.resp ⟨500, [], ["a=1", "b=2"], "oops"⟩)).cookieJar =
      CookieJar.empty.setCookies ["a=1", "b=2"] :=
  c8_success_path.1 [] CookieJar.empty "http://8.8.8.8/" [] none
    ⟨500, [], ["a=1", "b=2"], "oops"⟩ ⟨"http:", "8.8.8.8"⟩ rfl

/-- C10: the IPv4 private-range check is a textual prefix test on the
hostname, not an IP-address check: every parsed http/https URL whose hostname
begins with "10.", "127.", "0.", "192.168.", "169.254.", or "172." and a
second label in 16-31 is rejected, even when the hostname is a registered
public DNS name — in particular "http://10.example.com/" and
"http://172.20.downloads.example.com/" are rejected with the failure "Blocked:
private IP address". -/
theorem c10_textual_hostname_check :
    (∀ (s : String) (u : URL), parseURL s = some u →
        u.protocol = "http:" ∨ u.protocol = "https:" →
        privateIpTextPred (lowerStr u.hostname) →
        ∃ e, validateUrl s = .error e) ∧
    validateUrl "http://10.example.com/" =
      .error ⟨"Blocked: private IP address"⟩ ∧
    validateUrl "http://172.20.downloads.example.com/" =
      .error ⟨"Blocked: private IP address"⟩ := by
  refine ⟨?_, rfl, rfl⟩
  intro s u hp hproto hpre
  have hcond : (u.protocol != "http:" && u.protocol != "https:") = false := by
    rcases hproto with h | h <;> simp [h]
  by_cases hb : lowerStr u.hostname ∈ BLOCKED_HOSTNAMES
  · exact ⟨⟨"Blocked hostname: localhost"⟩,
      by simp [validateUrl, hp, hcond, hb]⟩
  · exact ⟨⟨"Blocked: private IP address"⟩,
      by simp [validateUrl, hp, hcond, hb, privPatterns_of _ hpre]⟩

/-- Witness for C10: the registered-looking name 10.example.com. -/
theorem c10_textual_hostname_check_witness :
    ∃ e, validateUrl "http://10.example.com/" = .error e :=
  c10_textual_hostname_check.1 "http://10.example.com/"
    ⟨"http:", "10.example.com"⟩ rfl (Or.inl rfl) (Or.inl rfl)

end AttendanceServer
